import Mathlib

/-!
Verification of the Trip-Planner-Flask service (`src/app.py`) by shallow
embedding.  Python dictionaries for museum records become Lean structures;
the mutable working-set loop of `a_star_search` becomes a fuel-indexed
recursion returning both the trip plan and the final working set; network
calls become explicit response values passed as arguments; a Python
exception that escapes a function is an `Except.error` result.  Python
floats are embedded as rationals (every IEEE float value is a rational, and
float comparison agrees with the rational order on those values); the
external geodesic library is abstracted as an arbitrary rational-valued
function wherever the code only consumes it, and modelled from the spec as
the great-circle haversine distance where its geometry itself is claimed.
-/

/-- The `Point` namedtuple of `app.py`: a latitude/longitude pair. -/
structure Point where
  latitude : ℚ
  longitude : ℚ
deriving DecidableEq, Repr

/-- A museum record as it flows through the service after cleaning: the
upstream `id` has been stripped, `city` is a string field, `imageUrl` is
optional, and `distance` is absent until the trip sequencer sets it. -/
structure Museum where
  name : String
  latitude : ℚ
  longitude : ℚ
  city : String
  imageUrl : Option String
  distance : Option ℚ
deriving DecidableEq, Repr

/-- The coordinate carried by a museum record, as built at each use site in
`a_star_search` by `Point(museum['latitude'], museum['longitude'])`. -/
def Museum.point (m : Museum) : Point :=
  { latitude := m.latitude, longitude := m.longitude }

/-- A record with its `distance` field removed, for comparing the sequencer's
output records with its input records. -/
def Museum.stripD (m : Museum) : Museum :=
  { m with distance := none }

/-- Python's `min(x :: xs, key := k)`: scan left to right keeping the current
best, replacing it only on a strictly smaller key, so the element returned is
the first one attaining the minimal key. -/
def pyMin {α : Type} (k : α → ℚ) (x : α) : List α → α
  | [] => x
  | y :: ys => if k y < k x then pyMin k y ys else pyMin k x ys

/-- The loop body plus loop of `a_star_search` (lines 111-123 of `app.py`),
with the heuristic passed in as a function `h`.  Each round: `min` picks the
first record with minimal heuristic key (`closest`), its `distance` entry is
assigned in place — modelled by `List.set` at the record's position, which is
`indexOf closest` — it is appended to the plan, the current location advances
to its coordinate, and `museums.remove(...)` erases the first record equal to
the updated one.  The second component is the working set left when the loop
stops; the fuel is the initial length, so the loop runs to exhaustion. -/
def astarGo (h : Point → Point → ℚ) : Nat → Point → List Museum → List Museum × List Museum
  | 0, _, ms => ([], ms)
  | _ + 1, _, [] => ([], [])
  | fuel + 1, cur, m0 :: rest =>
    let key := fun m : Museum => h cur m.point
    let closest := pyMin key m0 rest
    let updated := { closest with distance := some (h cur closest.point) }
    let ms1 := ((m0 :: rest).set ((m0 :: rest).indexOf closest) updated).erase updated
    let next := astarGo h fuel closest.point ms1
    (updated :: next.1, next.2)

/-- `a_star_search(start, museums)` of `app.py`: the trip plan produced by the
working-set loop. -/
def a_star_search (h : Point → Point → ℚ) (start : Point) (museums : List Museum) : List Museum :=
  (astarGo h museums.length start museums).1

/-- The working set as `a_star_search` leaves it: the caller's list is emptied
by the in-place `remove` calls, which the embedding returns explicitly. -/
def a_star_final_set (h : Point → Point → ℚ) (start : Point) (museums : List Museum) : List Museum :=
  (astarGo h museums.length start museums).2

/-- Python's `str.lower()`, character by character (ASCII case folding). -/
def pyLower (s : String) : String := String.mk (s.data.map Char.toLower)

/-- Helper for `pySplitComma`: accumulate the current chunk (reversed) while
scanning the character list. -/
def splitCommaAux : List Char → List Char → List String
  | [], acc => [String.mk acc.reverse]
  | c :: cs, acc =>
    if c = ',' then String.mk acc.reverse :: splitCommaAux cs []
    else splitCommaAux cs (c :: acc)

/-- Python's `str.split(',')` with an explicit separator: splitting the empty
string gives `[""]`, and separators are never collapsed. -/
def pySplitComma (s : String) : List String := splitCommaAux s.data []

/-- The outcome of the geolocation fetch in `get_current_location`: the
request or JSON decoding raises, or the JSON object lacks the `loc` field, or
it carries a `loc` string. -/
inductive GeoResponse where
  | netFail : GeoResponse
  | jsonNoLoc : GeoResponse
  | jsonLoc (s : String) : GeoResponse

/-- `get_current_location()` (lines 58-72 of `app.py`), with Python's `float`
parser abstracted as `parseFloat`.  The whole body is a `try` block returning
`(None, None)` on any exception: a network error, a missing `loc` field (the
explicit `raise ValueError`), an unpacking of `split(',')` that does not give
exactly two parts, or a `float()` failure. -/
def get_current_location (parseFloat : String → Option ℚ) :
    GeoResponse → Option ℚ × Option ℚ
  | .netFail => (none, none)
  | .jsonNoLoc => (none, none)
  | .jsonLoc s =>
    match pySplitComma s with
    | [la, lo] =>
      match parseFloat la, parseFloat lo with
      | some x, some y => (some x, some y)
      | _, _ => (none, none)
    | _ => (none, none)

/-- A museum record as the upstream provider returns it, before cleaning:
it still carries the `id` field and whatever `city` value the provider chose. -/
structure RawMuseum where
  id : Nat
  name : String
  latitude : ℚ
  longitude : ℚ
  city : String
  imageUrl : Option String
deriving DecidableEq, Repr

/-- The dictionary comprehension of line 80: drop the `id` key and keep the
rest; the record has no `distance` key yet. -/
def cleanMuseum (r : RawMuseum) : Museum :=
  { name := r.name, latitude := r.latitude, longitude := r.longitude,
    city := r.city, imageUrl := r.imageUrl, distance := none }

/-- The outcome of `requests.get` plus `response.json()` for a museum fetch:
either some exception is raised, or a status code and decoded body arrive. -/
inductive HttpResult where
  | exn : HttpResult
  | status (code : Nat) (body : List RawMuseum) : HttpResult

/-- The `{"city": ..., "data": ...}` dictionary built by `fetch_museum_data`. -/
structure CityData where
  city : String
  data : List Museum
deriving DecidableEq, Repr

/-- `fetch_museum_data(city_name)` (lines 75-84 of `app.py`).  There is no
`try` around the request: an exception from `requests.get` or `.json()`
escapes the function (`Except.error`).  A 200 status yields the cleaned
records tagged with the queried city; any other status yields `None`. -/
def fetch_museum_data (city : String) (resp : HttpResult) : Except Unit (Option CityData) :=
  match resp with
  | .exn => .error ()
  | .status code body =>
    if code = 200 then .ok (some { city := city, data := body.map cleanMuseum })
    else .ok none

/-- `fetch_museums_for_cities(cities)` (lines 94-104 of `app.py`), with the
per-city network outcome supplied by `f`.  Cities are fetched in input
order; a `None` result is skipped; otherwise every record's `city` field is
overwritten with the queried name and the batch is appended; an exception
from `fetch_museum_data` escapes the loop. -/
def fetch_museums_for_cities (f : String → HttpResult) :
    List String → Except Unit (List Museum)
  | [] => .ok []
  | c :: cs => do
    let md ← fetch_museum_data c (f c)
    let rest ← fetch_museums_for_cities f cs
    match md with
    | some cd => .ok ((cd.data.map fun m => { m with city := c }) ++ rest)
    | none => .ok rest

/-- The observable outcome of one handler call: a JSON body, a structured
error with an HTTP status, or an exception escaping the handler. -/
inductive HandlerResult (α : Type) where
  | ok (body : α) : HandlerResult α
  | err (msg : String) (status : Nat) : HandlerResult α
  | raised : HandlerResult α
deriving DecidableEq, Repr

/-- Error message of lines 137 and 183 of `app.py`. -/
def noMuseumsMsg : String :=
  "No valid museums found for the provided cities. Please enter valid city names."

/-- Error message of line 143 of `app.py`. -/
def noLocationMsg : String := "Unable to fetch current location."

/-- Error message of line 158 of `app.py`. -/
def badNumberMsg : String :=
  "Invalid start location number. Please enter a valid number or museum name."

/-- Error message of line 160 of `app.py`. -/
def badInputMsg : String :=
  "Invalid start location input. Please enter a valid number or museum name."

/-- `PlanTrip.post` (lines 130-170 of `app.py`).  The network world enters as
arguments: `f` gives each city's museum fetch outcome, `geo` the geolocation
response; Python's `float` and `int` parsers are `parseFloat` and `parseInt`
(`int(...)` raising `ValueError` is `none`); the heuristic is `h`.  The body:
aggregate museums (an escaping exception propagates), reject an empty list
with a 400, resolve the start location — "current location" via the
geolocation client, else the first case-insensitive museum-name match, else a
1-based index parsed from the input — and run the sequencer. -/
def planTripPost (h : Point → Point → ℚ) (f : String → HttpResult)
    (parseFloat : String → Option ℚ) (geo : GeoResponse)
    (parseInt : String → Option Int)
    (cities : List String) (start_location_input : String) :
    HandlerResult (List Museum) :=
  match fetch_museums_for_cities f cities with
  | .error _ => .raised
  | .ok museums =>
    if museums = [] then .err noMuseumsMsg 400
    else if pyLower start_location_input = "current location" then
      match get_current_location parseFloat geo with
      | (some la, some lo) =>
        .ok (a_star_search h { latitude := la, longitude := lo } museums)
      | _ => .err noLocationMsg 400
    else
      match museums.find? (fun m => pyLower start_location_input == pyLower m.name) with
      | some chosen => .ok (a_star_search h chosen.point museums)
      | none =>
        match parseInt start_location_input with
        | some v =>
          if hv : 0 ≤ v - 1 ∧ (v - 1).toNat < museums.length then
            .ok (a_star_search h (museums.get ⟨(v - 1).toNat, hv.2⟩).point museums)
          else .err badNumberMsg 400
        | none => .err badInputMsg 400

/-- `ShowMuseums.post` (lines 177-185 of `app.py`): aggregate museums and
return them, or a 400 error when the list is empty. -/
def showMuseumsPost (f : String → HttpResult) (cities : List String) :
    HandlerResult (List Museum) :=
  match fetch_museums_for_cities f cities with
  | .error _ => .raised
  | .ok museums =>
    if museums = [] then .err noMuseumsMsg 400
    else .ok museums

/-- Modelled from the spec: the geodesic distance of `calculate_distance` and
`heuristic` is computed by the external `geopy` library, which is not part of
this repository; spec section 4.4 describes it as the "ellipsoidal/great-circle
geodesic distance" in kilometers, modelled here as the great-circle haversine
distance on a sphere of the Earth's mean radius. -/
noncomputable def geodesicKm (a b : Point) : ℝ :=
  let p1 : ℝ := (a.latitude : ℝ) * Real.pi / 180
  let p2 : ℝ := (b.latitude : ℝ) * Real.pi / 180
  let l1 : ℝ := (a.longitude : ℝ) * Real.pi / 180
  let l2 : ℝ := (b.longitude : ℝ) * Real.pi / 180
  let hav : ℝ := Real.sin ((p2 - p1) / 2) ^ 2 +
    Real.cos p1 * Real.cos p2 * Real.sin ((l2 - l1) / 2) ^ 2
  2 * 6371.0088 * Real.arcsin (Real.sqrt hav)

/-- `calculate_distance(point1, point2)` (lines 87-91 of `app.py`): delegates
to the geodesic distance, in kilometers. -/
noncomputable def calculate_distance (point1 point2 : Point) : ℝ :=
  geodesicKm point1 point2

/-- `heuristic(a, b)` (lines 107-108 of `app.py`): the same geodesic distance. -/
noncomputable def heuristic (a b : Point) : ℝ :=
  geodesicKm a b

/-- Concrete heuristic used by witnesses: squared rational Euclidean distance
(any rational-valued function is admissible for the sequencer theorems). -/
def sampleH (a b : Point) : ℚ :=
  (a.latitude - b.latitude) * (a.latitude - b.latitude) +
    (a.longitude - b.longitude) * (a.longitude - b.longitude)

/-- A concrete museum record for witnesses. -/
def egyptianMuseum : Museum :=
  { name := "Egyptian Museum", latitude := 30, longitude := 31,
    city := "Cairo", imageUrl := some "img", distance := none }

/-- A second concrete museum record for witnesses. -/
def louvre : Museum :=
  { name := "Louvre", latitude := 48, longitude := 2,
    city := "Paris", imageUrl := none, distance := none }

/-- A concrete upstream record for witnesses. -/
def rawEgyptian : RawMuseum :=
  { id := 7, name := "Egyptian Museum", latitude := 30, longitude := 31,
    city := "Misr", imageUrl := some "img" }

/-- A concrete per-city fetch outcome for witnesses: every city succeeds with
one record. -/
def sampleFetch : String → HttpResult :=
  fun _ => .status 200 [rawEgyptian]

/-- A concrete per-city fetch outcome for witnesses: every city fails with a
404 status. -/
def failFetch : String → HttpResult :=
  fun _ => .status 404 []

theorem pyMin_mem {α : Type} (k : α → ℚ) (x : α) (xs : List α) :
    pyMin k x xs ∈ x :: xs := by
  induction xs generalizing x with
  | nil => simp [pyMin]
  | cons y ys ih =>
    simp only [pyMin]
    by_cases hlt : k y < k x
    · rw [if_pos hlt]
      exact List.mem_cons_of_mem x (ih (x := y))
    · rw [if_neg hlt]
      rcases List.mem_cons.1 (ih (x := x)) with h | h
      · simp [h]
      · simp [List.mem_cons, h]

theorem pyMin_le {α : Type} (k : α → ℚ) (x : α) (xs : List α) :
    ∀ y ∈ x :: xs, k (pyMin k x xs) ≤ k y := by
  induction xs generalizing x with
  | nil =>
    intro y hy
    simp only [List.mem_cons, List.not_mem_nil, or_false] at hy
    simp [pyMin, hy]
  | cons z zs ih =>
    intro y hy
    simp only [pyMin]
    by_cases hlt : k z < k x
    · rw [if_pos hlt]
      have hz : k (pyMin k z zs) ≤ k z := ih z z (List.mem_cons_self z zs)
      rcases List.mem_cons.1 hy with h | h
      · rw [h]; exact le_of_lt (lt_of_le_of_lt hz hlt)
      · exact ih z y h
    · rw [if_neg hlt]
      have hx : k (pyMin k x zs) ≤ k x := ih x x (List.mem_cons_self x zs)
      rcases List.mem_cons.1 hy with h | h
      · rw [h]; exact hx
      · rcases List.mem_cons.1 h with h2 | h2
        · rw [h2]; exact le_trans hx (le_of_not_lt hlt)
        · exact ih x y (List.mem_cons.2 (Or.inr h2))

theorem pyMin_lt_of_ne {α : Type} (k : α → ℚ) (x : α) (xs : List α)
    (h : pyMin k x xs ≠ x) : k (pyMin k x xs) < k x := by
  induction xs generalizing x with
  | nil => simp [pyMin] at h
  | cons y ys ih =>
    by_cases hlt : k y < k x
    · simp only [pyMin, if_pos hlt] at h ⊢
      have hle : k (pyMin k y ys) ≤ k y :=
        pyMin_le k y ys y (List.mem_cons_self y ys)
      exact lt_of_le_of_lt hle hlt
    · simp only [pyMin, if_neg hlt] at h ⊢
      exact ih x h

theorem pyMin_lt_before {α : Type} [DecidableEq α] (k : α → ℚ) (x : α) (xs : List α) :
    ∀ j b, j < (x :: xs).indexOf (pyMin k x xs) → (x :: xs)[j]? = some b →
      k (pyMin k x xs) < k b := by
  induction xs generalizing x with
  | nil =>
    intro j b hj _
    rw [show pyMin k x [] = x from rfl, List.indexOf_cons_self] at hj
    exact absurd hj (Nat.not_lt_zero j)
  | cons y ys ih =>
    intro j b hj hb
    by_cases hlt : k y < k x
    · have hpm : pyMin k x (y :: ys) = pyMin k y ys := by simp [pyMin, hlt]
      rw [hpm] at hj ⊢
      have hmx : k (pyMin k y ys) < k x :=
        lt_of_le_of_lt (pyMin_le k y ys y (List.mem_cons_self y ys)) hlt
      have hne : pyMin k y ys ≠ x := fun he => absurd (he ▸ hmx) (lt_irrefl _)
      rw [List.indexOf_cons_ne _ (Ne.symm hne)] at hj
      cases j with
      | zero =>
        have hbx : b = x := by
          have := hb
          simp only [List.getElem?_cons_zero, Option.some.injEq] at this
          exact this.symm
        rw [hbx]; exact hmx
      | succ j =>
        have hj2 : j < (y :: ys).indexOf (pyMin k y ys) := Nat.lt_of_succ_lt_succ hj
        have hb2 : (y :: ys)[j]? = some b := by simpa using hb
        exact ih y j b hj2 hb2
    · have hpm : pyMin k x (y :: ys) = pyMin k x ys := by simp [pyMin, hlt]
      rw [hpm] at hj ⊢
      by_cases hx : pyMin k x ys = x
      · rw [hx, List.indexOf_cons_self] at hj
        exact absurd hj (Nat.not_lt_zero j)
      · have hmx : k (pyMin k x ys) < k x := pyMin_lt_of_ne k x ys hx
        have hmy : k (pyMin k x ys) < k y := lt_of_lt_of_le hmx (le_of_not_lt hlt)
        have hney : pyMin k x ys ≠ y := fun he => absurd (he ▸ hmy) (lt_irrefl _)
        rw [List.indexOf_cons_ne _ (Ne.symm hx)] at hj
        cases j with
        | zero =>
          have hbx : b = x := by
            have := hb
            simp only [List.getElem?_cons_zero, Option.some.injEq] at this
            exact this.symm
          rw [hbx]; exact hmx
        | succ j =>
          have hj2 : j < (y :: ys).indexOf (pyMin k x ys) := Nat.lt_of_succ_lt_succ hj
          rw [List.indexOf_cons_ne _ (Ne.symm hney)] at hj2
          cases j with
          | zero =>
            have hby : b = y := by
              have := hb
              simp only [List.getElem?_cons_succ, List.getElem?_cons_zero,
                Option.some.injEq] at this
              exact this.symm
            rw [hby]; exact hmy
          | succ j =>
            have hj3 : j < ys.indexOf (pyMin k x ys) := Nat.lt_of_succ_lt_succ hj2
            have hb3 : ys[j]? = some b := by simpa using hb
            have hj4 : j + 1 < (x :: ys).indexOf (pyMin k x ys) := by
              rw [List.indexOf_cons_ne _ (Ne.symm hx)]
              exact Nat.succ_lt_succ hj3
            have hb4 : (x :: ys)[j + 1]? = some b := by simpa using hb3
            exact ih x (j + 1) b hj4 hb4

theorem erase_set_eq_eraseIdx {α : Type} [DecidableEq α] :
    ∀ (l : List α) (i : Nat) (a : α), i < l.length →
      (∀ j b, j < i → l[j]? = some b → b ≠ a) →
      (l.set i a).erase a = l.eraseIdx i := by
  intro l
  induction l with
  | nil => intro i a hi _; exact absurd hi (Nat.not_lt_zero i)
  | cons x xs ih =>
    intro i a hi hbefore
    cases i with
    | zero => simp [List.set]
    | succ i =>
      have hxa : x ≠ a := hbefore 0 x (Nat.succ_pos i) (by simp)
      have hset : (x :: xs).set (i + 1) a = x :: xs.set i a := rfl
      rw [hset, List.erase_cons_tail (by simpa using hxa), List.eraseIdx_cons_succ]
      have hi2 : i < xs.length := Nat.lt_of_succ_lt_succ hi
      have hbefore2 : ∀ j b, j < i → xs[j]? = some b → b ≠ a := by
        intro j b hj hjb
        exact hbefore (j + 1) b (Nat.succ_lt_succ hj) (by simpa using hjb)
      rw [ih i a hi2 hbefore2]

theorem perm_getElem_cons_eraseIdx {α : Type} :
    ∀ (l : List α) (i : Nat) (hi : i < l.length),
      l.Perm (l.get ⟨i, hi⟩ :: l.eraseIdx i) := by
  intro l
  induction l with
  | nil => intro i hi; exact absurd hi (Nat.not_lt_zero i)
  | cons x xs ih =>
    intro i hi
    cases i with
    | zero => simp
    | succ i =>
      have hi2 : i < xs.length := Nat.lt_of_succ_lt_succ hi
      have h1 : (x :: xs).Perm (x :: (xs.get ⟨i, hi2⟩ :: xs.eraseIdx i)) :=
        List.Perm.cons x (ih i hi2)
      have h2 : (x :: (xs.get ⟨i, hi2⟩ :: xs.eraseIdx i)).Perm
          (xs.get ⟨i, hi2⟩ :: (x :: xs.eraseIdx i)) := List.Perm.swap _ _ _
      exact (h1.trans h2)

theorem astar_erase_eq (h : Point → Point → ℚ) (cur : Point) (m0 : Museum) (rest : List Museum) :
    ((m0 :: rest).set
        ((m0 :: rest).indexOf (pyMin (fun m : Museum => h cur m.point) m0 rest))
        { pyMin (fun m : Museum => h cur m.point) m0 rest with
            distance := some (h cur (pyMin (fun m : Museum => h cur m.point) m0 rest).point) }).erase
      { pyMin (fun m : Museum => h cur m.point) m0 rest with
          distance := some (h cur (pyMin (fun m : Museum => h cur m.point) m0 rest).point) }
    = (m0 :: rest).eraseIdx
        ((m0 :: rest).indexOf (pyMin (fun m : Museum => h cur m.point) m0 rest)) := by
  apply erase_set_eq_eraseIdx
  · exact List.indexOf_lt_length.2 (pyMin_mem (fun m : Museum => h cur m.point) m0 rest)
  · intro j b hj hjb hbe
    have hlt := pyMin_lt_before (fun m : Museum => h cur m.point) m0 rest j b hj hjb
    have hkb : h cur b.point =
        h cur (pyMin (fun m : Museum => h cur m.point) m0 rest).point := by
      rw [hbe]
      rfl
    rw [show (fun m : Museum => h cur m.point) b = h cur b.point from rfl, hkb] at hlt
    exact lt_irrefl _ hlt

theorem astarGo_cons (h : Point → Point → ℚ) (fuel : Nat) (cur : Point)
    (m0 : Museum) (rest : List Museum) :
    astarGo h (fuel + 1) cur (m0 :: rest) =
      ({ pyMin (fun m : Museum => h cur m.point) m0 rest with
          distance := some (h cur (pyMin (fun m : Museum => h cur m.point) m0 rest).point) } ::
        (astarGo h fuel (pyMin (fun m : Museum => h cur m.point) m0 rest).point
          ((m0 :: rest).eraseIdx
            ((m0 :: rest).indexOf (pyMin (fun m : Museum => h cur m.point) m0 rest)))).1,
       (astarGo h fuel (pyMin (fun m : Museum => h cur m.point) m0 rest).point
          ((m0 :: rest).eraseIdx
            ((m0 :: rest).indexOf (pyMin (fun m : Museum => h cur m.point) m0 rest)))).2) := by
  simp only [astarGo]
  rw [astar_erase_eq]

theorem astarGo_main (h : Point → Point → ℚ) :
    ∀ (n : Nat) (cur : Point) (ms : List Museum), ms.length = n →
      ((astarGo h n cur ms).1.map Museum.stripD).Perm (ms.map Museum.stripD) ∧
      (astarGo h n cur ms).2 = [] := by
  intro n
  induction n with
  | zero =>
    intro cur ms hlen
    have hnil : ms = [] := List.length_eq_zero.1 hlen
    subst hnil
    simp [astarGo]
  | succ n ih =>
    intro cur ms hlen
    match ms with
    | [] => simp at hlen
    | m0 :: rest =>
      rw [astarGo_cons]
      have hi : (m0 :: rest).indexOf (pyMin (fun m : Museum => h cur m.point) m0 rest)
          < (m0 :: rest).length :=
        List.indexOf_lt_length.2 (pyMin_mem (fun m : Museum => h cur m.point) m0 rest)
      have hlen3 : ((m0 :: rest).eraseIdx
          ((m0 :: rest).indexOf (pyMin (fun m : Museum => h cur m.point) m0 rest))).length = n := by
        rw [List.length_eraseIdx_of_lt hi]
        simpa using hlen
      obtain ⟨hperm, hset⟩ :=
        ih (pyMin (fun m : Museum => h cur m.point) m0 rest).point
          ((m0 :: rest).eraseIdx
            ((m0 :: rest).indexOf (pyMin (fun m : Museum => h cur m.point) m0 rest))) hlen3
      refine ⟨?_, hset⟩
      dsimp only
      simp only [List.map_cons]
      have hget : (m0 :: rest).get
          ⟨(m0 :: rest).indexOf (pyMin (fun m : Museum => h cur m.point) m0 rest), hi⟩
          = pyMin (fun m : Museum => h cur m.point) m0 rest := List.indexOf_get hi
      have hp2 : ((m0 :: rest).map Museum.stripD).Perm
          (Museum.stripD (pyMin (fun m : Museum => h cur m.point) m0 rest) ::
            ((m0 :: rest).eraseIdx
              ((m0 :: rest).indexOf
                (pyMin (fun m : Museum => h cur m.point) m0 rest))).map Museum.stripD) := by
        have hpm := (perm_getElem_cons_eraseIdx (m0 :: rest)
          ((m0 :: rest).indexOf (pyMin (fun m : Museum => h cur m.point) m0 rest)) hi).map
          Museum.stripD
        rw [hget] at hpm
        simpa using hpm
      have hstrip : Museum.stripD
          { pyMin (fun m : Museum => h cur m.point) m0 rest with
              distance := some (h cur (pyMin (fun m : Museum => h cur m.point) m0 rest).point) }
          = Museum.stripD (pyMin (fun m : Museum => h cur m.point) m0 rest) := rfl
      rw [hstrip]
      exact (List.Perm.cons _ hperm).trans hp2.symm

theorem astarGo_distance_isSome (h : Point → Point → ℚ) :
    ∀ (n : Nat) (cur : Point) (ms : List Museum) (m : Museum),
      m ∈ (astarGo h n cur ms).1 → m.distance.isSome := by
  intro n
  induction n with
  | zero => intro cur ms m hm; simp [astarGo] at hm
  | succ n ih =>
    intro cur ms m hm
    match ms with
    | [] => simp [astarGo] at hm
    | m0 :: rest =>
      rw [astarGo_cons] at hm
      dsimp only at hm
      rcases List.mem_cons.1 hm with hh | hh
      · rw [hh]; rfl
      · exact ih _ _ m hh

/-- C1: at each iteration the sequencer selects the record whose coordinate
minimizes the heuristic distance from the current position — every record
before the selected one in the input order has a strictly larger key, so ties
go to the record encountered first — sets its `distance` field to that
minimum, appends it to the output, removes it from the working set, and
recurses from its coordinate. -/
theorem a_star_search_greedy_step (h : Point → Point → ℚ) (cur : Point)
    (m0 : Museum) (rest : List Museum) :
    pyMin (fun m : Museum => h cur m.point) m0 rest ∈ m0 :: rest ∧
    (∀ m ∈ m0 :: rest,
      h cur (pyMin (fun m : Museum => h cur m.point) m0 rest).point ≤ h cur m.point) ∧
    (∀ j b, j < (m0 :: rest).indexOf (pyMin (fun m : Museum => h cur m.point) m0 rest) →
      (m0 :: rest)[j]? = some b →
      h cur (pyMin (fun m : Museum => h cur m.point) m0 rest).point < h cur b.point) ∧
    a_star_search h cur (m0 :: rest) =
      { pyMin (fun m : Museum => h cur m.point) m0 rest with
          distance := some (h cur (pyMin (fun m : Museum => h cur m.point) m0 rest).point) } ::
        a_star_search h (pyMin (fun m : Museum => h cur m.point) m0 rest).point
          ((m0 :: rest).eraseIdx
            ((m0 :: rest).indexOf (pyMin (fun m : Museum => h cur m.point) m0 rest))) := by
  refine ⟨pyMin_mem _ m0 rest, pyMin_le _ m0 rest, pyMin_lt_before _ m0 rest, ?_⟩
  have hi : (m0 :: rest).indexOf (pyMin (fun m : Museum => h cur m.point) m0 rest)
      < (m0 :: rest).length :=
    List.indexOf_lt_length.2 (pyMin_mem (fun m : Museum => h cur m.point) m0 rest)
  have hlen3 : ((m0 :: rest).eraseIdx
      ((m0 :: rest).indexOf (pyMin (fun m : Museum => h cur m.point) m0 rest))).length
      = rest.length := by
    rw [List.length_eraseIdx_of_lt hi]
    simp
  unfold a_star_search
  rw [hlen3, List.length_cons, astarGo_cons]

/-- C2: for every heuristic, start coordinate and non-empty museum list, the
trip plan contains exactly the input records (with only their `distance`
fields rewritten): stripped of `distance`, it is a permutation of the input,
its length equals the input length, and the working set is empty on return. -/
theorem a_star_search_is_permutation (h : Point → Point → ℚ) (start : Point)
    (museums : List Museum) (hne : museums ≠ []) :
    ((a_star_search h start museums).map Museum.stripD).Perm
      (museums.map Museum.stripD) ∧
    (a_star_search h start museums).length = museums.length ∧
    a_star_final_set h start museums = [] := by
  obtain ⟨hperm, hset⟩ := astarGo_main h museums.length start museums rfl
  refine ⟨hperm, ?_, hset⟩
  have hl := hperm.length_eq
  simpa using hl

/-- C10: every record of the trip plan has its `distance` field populated and
agrees with some input record on `name`, `latitude`, `longitude`, `city` and
`imageUrl`. -/
theorem a_star_search_frame (h : Point → Point → ℚ) (start : Point)
    (museums : List Museum) :
    ∀ m ∈ a_star_search h start museums,
      m.distance.isSome ∧
      ∃ m0 ∈ museums, m.name = m0.name ∧ m.latitude = m0.latitude ∧
        m.longitude = m0.longitude ∧ m.city = m0.city ∧ m.imageUrl = m0.imageUrl := by
  intro m hm
  refine ⟨astarGo_distance_isSome h museums.length start museums m hm, ?_⟩
  obtain ⟨hperm, -⟩ := astarGo_main h museums.length start museums rfl
  have hms : Museum.stripD m ∈ museums.map Museum.stripD :=
    hperm.mem_iff.1 (List.mem_map_of_mem Museum.stripD hm)
  obtain ⟨m0, hm0, he⟩ := List.mem_map.1 hms
  exact ⟨m0, hm0, (congrArg Museum.name he).symm, (congrArg Museum.latitude he).symm,
    (congrArg Museum.longitude he).symm, (congrArg Museum.city he).symm,
    (congrArg Museum.imageUrl he).symm⟩

/-- C7: a network failure, a missing `loc` field, a `loc` string that does
not split on the comma into exactly two parts, and a float-parse failure on
either part all make `get_current_location` return the absent pair; none of
these cases lets an exception reach the caller. -/
theorem get_current_location_failure_absent (parseFloat : String → Option ℚ) :
    get_current_location parseFloat GeoResponse.netFail = (none, none) ∧
    get_current_location parseFloat GeoResponse.jsonNoLoc = (none, none) ∧
    (∀ s, (∀ la lo, pySplitComma s ≠ [la, lo]) →
      get_current_location parseFloat (GeoResponse.jsonLoc s) = (none, none)) ∧
    (∀ s la lo, pySplitComma s = [la, lo] →
      (parseFloat la = none ∨ parseFloat lo = none) →
      get_current_location parseFloat (GeoResponse.jsonLoc s) = (none, none)) := by
  refine ⟨rfl, rfl, ?_, ?_⟩
  · intro s hs
    cases hsp : pySplitComma s with
    | nil =>
      simp only [get_current_location]
    | cons la tl =>
      cases tl with
      | nil =>
        simp only [get_current_location]
      | cons lo tl2 =>
        cases tl2 with
        | nil => exact absurd hsp (hs la lo)
        | cons u tl3 =>
          simp only [get_current_location]
  · intro s la lo hsp hpf
    have hred : get_current_location parseFloat (GeoResponse.jsonLoc s) =
        match parseFloat la, parseFloat lo with
        | some x, some y => (some x, some y)
        | _, _ => (none, none) := by
      simp only [get_current_location]
      rw [hsp]
    rw [hred]
    rcases hpf with hn | hn
    · rw [hn]
    · rw [hn]
      cases parseFloat la <;> rfl

/-- C9: the geolocation client returns either two parsed floats or the fully
absent pair `(None, None)` — never exactly one absent component — so the
handler's test that either component is `None` detects exactly the absence
case. -/
theorem get_current_location_shape (parseFloat : String → Option ℚ) (r : GeoResponse) :
    (get_current_location parseFloat r = (none, none) ∨
      ∃ x y, get_current_location parseFloat r = (some x, some y)) ∧
    (((get_current_location parseFloat r).1 = none ∨
        (get_current_location parseFloat r).2 = none) ↔
      get_current_location parseFloat r = (none, none)) := by
  cases r with
  | netFail => simp [get_current_location]
  | jsonNoLoc => simp [get_current_location]
  | jsonLoc s =>
    cases hsp : pySplitComma s with
    | nil =>
      have hred : get_current_location parseFloat (GeoResponse.jsonLoc s) = (none, none) := by
        simp only [get_current_location]
        rw [hsp]
      simp [hred]
    | cons la tl =>
      cases tl with
      | nil =>
        have hred : get_current_location parseFloat (GeoResponse.jsonLoc s) = (none, none) := by
          simp only [get_current_location]
          rw [hsp]
        simp [hred]
      | cons lo tl2 =>
        cases tl2 with
        | nil =>
          have hred : get_current_location parseFloat (GeoResponse.jsonLoc s) =
              match parseFloat la, parseFloat lo with
              | some x, some y => (some x, some y)
              | _, _ => (none, none) := by
            simp only [get_current_location]
            rw [hsp]
          rw [hred]
          cases parseFloat la <;> cases parseFloat lo <;> simp
        | cons u tl3 =>
          have hred : get_current_location parseFloat (GeoResponse.jsonLoc s) = (none, none) := by
            simp only [get_current_location]
            rw [hsp]
          simp [hred]

/-- C8: the geodesic distance function is symmetric in its two coordinates
and vanishes when both coordinates coincide. -/
theorem calculate_distance_symm_self (a b : Point) :
    calculate_distance a b = calculate_distance b a ∧
    calculate_distance a a = 0 := by
  constructor
  · simp only [calculate_distance, geodesicKm]
    have h1 : ∀ x y : ℝ, Real.sin ((x - y) / 2) ^ 2 = Real.sin ((y - x) / 2) ^ 2 := by
      intro x y
      have hx : (x - y) / 2 = -((y - x) / 2) := by ring
      rw [hx, Real.sin_neg]
      ring
    rw [h1 ((b.latitude : ℝ) * Real.pi / 180) ((a.latitude : ℝ) * Real.pi / 180),
      h1 ((b.longitude : ℝ) * Real.pi / 180) ((a.longitude : ℝ) * Real.pi / 180),
      mul_comm (Real.cos ((a.latitude : ℝ) * Real.pi / 180))
        (Real.cos ((b.latitude : ℝ) * Real.pi / 180))]
  · simp [calculate_distance, geodesicKm]

theorem fetch_cities_cons (f : String → HttpResult) (c : String) (cs : List String) :
    fetch_museums_for_cities f (c :: cs) =
      (fetch_museum_data c (f c)).bind fun md =>
        (fetch_museums_for_cities f cs).bind fun rest =>
          match md with
          | some cd => .ok ((cd.data.map fun m => { m with city := c }) ++ rest)
          | none => .ok rest := rfl

/-- C5: when no per-city fetch raises, the aggregator returns exactly the
concatenation, in input city order, of every 200-status body cleaned and
retagged with the queried city name; non-200 cities contribute nothing, and
an empty input yields the empty list. -/
theorem fetch_museums_for_cities_spec (f : String → HttpResult) (cities : List String)
    (hne : ∀ c ∈ cities, f c ≠ HttpResult.exn) :
    fetch_museums_for_cities f cities = Except.ok (cities.flatMap fun c =>
      match f c with
      | HttpResult.exn => []
      | HttpResult.status code body =>
        if code = 200 then body.map fun r => { cleanMuseum r with city := c }
        else []) ∧
    fetch_museums_for_cities f [] = Except.ok [] := by
  refine ⟨?_, rfl⟩
  induction cities with
  | nil => rfl
  | cons c cs ih =>
    have hc : f c ≠ HttpResult.exn := hne c (List.mem_cons_self c cs)
    have ihcs := ih fun x hx => hne x (List.mem_cons.2 (Or.inr hx))
    rw [fetch_cities_cons, List.flatMap_cons]
    cases hfc : f c with
    | exn => exact absurd hfc hc
    | status code body =>
      by_cases h200 : code = 200
      · subst h200
        have h1 : fetch_museum_data c (HttpResult.status 200 body) =
            Except.ok (some { city := c, data := body.map cleanMuseum }) := by
          simp [fetch_museum_data]
        rw [h1, ihcs]
        simp only [Except.bind]
        simp [List.map_map, Function.comp]
      · have h1 : fetch_museum_data c (HttpResult.status code body) = Except.ok none := by
          simp [fetch_museum_data, h200]
        rw [h1, ihcs]
        simp only [Except.bind]
        simp [h200]

/-- C6: when aggregation yields the empty museum list, both `plan_trip` and
`show_museums` return the 400 "no valid museums" error; for `plan_trip` the
outcome is the same for every heuristic, geolocation response, parser and
start-location input, so neither start-location resolution nor the sequencer
influences the response. -/
theorem empty_museums_yield_400 (f : String → HttpResult) (cities : List String)
    (hempty : fetch_museums_for_cities f cities = Except.ok []) :
    (∀ (h : Point → Point → ℚ) (parseFloat : String → Option ℚ) (geo : GeoResponse)
      (parseInt : String → Option Int) (sl : String),
      planTripPost h f parseFloat geo parseInt cities sl =
        HandlerResult.err noMuseumsMsg 400) ∧
    showMuseumsPost f cities = HandlerResult.err noMuseumsMsg 400 := by
  constructor
  · intro h pf geo pi sl
    simp [planTripPost, hempty]
  · simp [showMuseumsPost, hempty]

/-- C3 counterexample: a raised network exception during the museum fetch is
not converted to the absence signal inside `fetch_museum_data`: the
exception escapes instead. -/
theorem fetch_museum_data_exn_not_caught :
    fetch_museum_data "Cairo" HttpResult.exn ≠ Except.ok none := by
  simp [fetch_museum_data]

/-- C3 amended: a non-200 upstream status is converted to the absence signal
inside `fetch_museum_data`, and the handler's defined failure branches return
structured 400 errors; but a raised network exception is not caught anywhere:
it escapes `fetch_museum_data`, aborts `fetch_museums_for_cities`, and
reaches the HTTP caller as an unhandled fault from both handlers. -/
theorem fetch_exception_propagates (city : String) (code : Nat) (body : List RawMuseum)
    (hc : code ≠ 200) (f : String → HttpResult) (cs : List String)
    (hf : f city = HttpResult.exn) (h : Point → Point → ℚ)
    (parseFloat : String → Option ℚ) (geo : GeoResponse)
    (parseInt : String → Option Int) (sl : String) :
    fetch_museum_data city (HttpResult.status code body) = Except.ok none ∧
    fetch_museum_data city HttpResult.exn = Except.error () ∧
    fetch_museums_for_cities f (city :: cs) = Except.error () ∧
    planTripPost h f parseFloat geo parseInt (city :: cs) sl = HandlerResult.raised ∧
    showMuseumsPost f (city :: cs) = HandlerResult.raised := by
  have hagg : fetch_museums_for_cities f (city :: cs) = Except.error () := by
    rw [fetch_cities_cons, hf]
    rfl
  refine ⟨by simp [fetch_museum_data, hc], rfl, hagg, ?_, ?_⟩
  · simp [planTripPost, hagg]
  · simp [showMuseumsPost, hagg]

/-- C4: start-location resolution for `plan_trip` with a non-empty museum
list follows this precedence: "current location" (case-insensitive) consults
the geolocation client, whose absence yields the 400 location error and whose
success starts the sequencer at the fetched coordinate; otherwise the first
museum whose lowercased name equals the lowercased input provides the start;
otherwise an input parsing as an integer `v` with `v - 1` a valid 0-based
index starts at that museum (1-based from the caller's view); an out-of-range
number yields the 400 number error and an unparseable input the 400 input
error. -/
theorem planTripPost_start_resolution (h : Point → Point → ℚ) (f : String → HttpResult)
    (pf : String → Option ℚ) (geo : GeoResponse) (pint : String → Option Int)
    (cities : List String) (sl : String) (museums : List Museum)
    (hagg : fetch_museums_for_cities f cities = Except.ok museums)
    (hne : museums ≠ []) :
    (pyLower sl = "current location" →
      (get_current_location pf geo = (none, none) →
        planTripPost h f pf geo pint cities sl = HandlerResult.err noLocationMsg 400) ∧
      (∀ la lo, get_current_location pf geo = (some la, some lo) →
        planTripPost h f pf geo pint cities sl =
          HandlerResult.ok (a_star_search h { latitude := la, longitude := lo } museums))) ∧
    (pyLower sl ≠ "current location" →
      (∀ chosen, museums.find? (fun m => pyLower sl == pyLower m.name) = some chosen →
        planTripPost h f pf geo pint cities sl =
          HandlerResult.ok (a_star_search h chosen.point museums)) ∧
      (museums.find? (fun m => pyLower sl == pyLower m.name) = none →
        (∀ v chosen, pint sl = some v → 0 ≤ v - 1 →
          ∀ hlt : (v - 1).toNat < museums.length,
          museums.get ⟨(v - 1).toNat, hlt⟩ = chosen →
          planTripPost h f pf geo pint cities sl =
            HandlerResult.ok (a_star_search h chosen.point museums)) ∧
        (∀ v, pint sl = some v → ¬(0 ≤ v - 1 ∧ (v - 1).toNat < museums.length) →
          planTripPost h f pf geo pint cities sl = HandlerResult.err badNumberMsg 400) ∧
        (pint sl = none →
          planTripPost h f pf geo pint cities sl = HandlerResult.err badInputMsg 400))) := by
  constructor
  · intro hl
    constructor
    · intro hgeo
      simp [planTripPost, hagg, hne, hl, hgeo]
    · intro la lo hgeo
      simp [planTripPost, hagg, hne, hl, hgeo]
  · intro hl2
    constructor
    · intro chosen hfind
      simp [planTripPost, hagg, hne, hl2, hfind]
    · intro hfind
      refine ⟨?_, ?_, ?_⟩
      · intro v chosen hv hpos hlt hchosen
        have hvalid : 0 ≤ v - 1 ∧ (v - 1).toNat < museums.length := ⟨hpos, hlt⟩
        have hidx : v.toNat - 1 < museums.length := by omega
        have hcc : museums[v.toNat - 1] = chosen := by
          rw [← hchosen, List.get_eq_getElem]
          congr 1
          show v.toNat - 1 = (v - 1).toNat
          omega
        simp [planTripPost, hagg, hne, hl2, hfind, hv, hvalid, hidx, hcc]
      · intro v hv hnv
        simp [planTripPost, hagg, hne, hl2, hfind, hv, hnv]
        intro hge
        omega
      · intro hpi
        simp [planTripPost, hagg, hne, hl2, hfind, hpi]

theorem a_star_search_greedy_step_witness :
    pyMin (fun m : Museum => sampleH { latitude := 0, longitude := 0 } m.point)
        egyptianMuseum [louvre] ∈ egyptianMuseum :: [louvre] ∧
    (∀ m ∈ egyptianMuseum :: [louvre],
      sampleH { latitude := 0, longitude := 0 }
          (pyMin (fun m : Museum => sampleH { latitude := 0, longitude := 0 } m.point)
            egyptianMuseum [louvre]).point ≤
        sampleH { latitude := 0, longitude := 0 } m.point) ∧
    (∀ j b, j < (egyptianMuseum :: [louvre]).indexOf
        (pyMin (fun m : Museum => sampleH { latitude := 0, longitude := 0 } m.point)
          egyptianMuseum [louvre]) →
      (egyptianMuseum :: [louvre])[j]? = some b →
      sampleH { latitude := 0, longitude := 0 }
          (pyMin (fun m : Museum => sampleH { latitude := 0, longitude := 0 } m.point)
            egyptianMuseum [louvre]).point <
        sampleH { latitude := 0, longitude := 0 } b.point) ∧
    a_star_search sampleH { latitude := 0, longitude := 0 } (egyptianMuseum :: [louvre]) =
      { pyMin (fun m : Museum => sampleH { latitude := 0, longitude := 0 } m.point)
          egyptianMuseum [louvre] with
          distance := some (sampleH { latitude := 0, longitude := 0 }
            (pyMin (fun m : Museum => sampleH { latitude := 0, longitude := 0 } m.point)
              egyptianMuseum [louvre]).point) } ::
        a_star_search sampleH
          (pyMin (fun m : Museum => sampleH { latitude := 0, longitude := 0 } m.point)
            egyptianMuseum [louvre]).point
          ((egyptianMuseum :: [louvre]).eraseIdx
            ((egyptianMuseum :: [louvre]).indexOf
              (pyMin (fun m : Museum => sampleH { latitude := 0, longitude := 0 } m.point)
                egyptianMuseum [louvre]))) :=
  a_star_search_greedy_step sampleH { latitude := 0, longitude := 0 } egyptianMuseum [louvre]

theorem a_star_search_is_permutation_witness :
    (([egyptianMuseum, louvre] : List Museum) ≠ []) ∧
    (((a_star_search sampleH { latitude := 0, longitude := 0 }
        [egyptianMuseum, louvre]).map Museum.stripD).Perm
      ([egyptianMuseum, louvre].map Museum.stripD) ∧
    (a_star_search sampleH { latitude := 0, longitude := 0 }
        [egyptianMuseum, louvre]).length = ([egyptianMuseum, louvre] : List Museum).length ∧
    a_star_final_set sampleH { latitude := 0, longitude := 0 } [egyptianMuseum, louvre] = []) :=
  ⟨by simp, a_star_search_is_permutation sampleH { latitude := 0, longitude := 0 }
    [egyptianMuseum, louvre] (by simp)⟩

theorem a_star_search_frame_witness :
    ({ egyptianMuseum with
        distance := some (sampleH { latitude := 0, longitude := 0 } egyptianMuseum.point) }
      : Museum).distance.isSome ∧
    ∃ m0 ∈ [egyptianMuseum],
      ({ egyptianMuseum with
          distance := some (sampleH { latitude := 0, longitude := 0 } egyptianMuseum.point) }
        : Museum).name = m0.name ∧
      ({ egyptianMuseum with
          distance := some (sampleH { latitude := 0, longitude := 0 } egyptianMuseum.point) }
        : Museum).latitude = m0.latitude ∧
      ({ egyptianMuseum with
          distance := some (sampleH { latitude := 0, longitude := 0 } egyptianMuseum.point) }
        : Museum).longitude = m0.longitude ∧
      ({ egyptianMuseum with
          distance := some (sampleH { latitude := 0, longitude := 0 } egyptianMuseum.point) }
        : Museum).city = m0.city ∧
      ({ egyptianMuseum with
          distance := some (sampleH { latitude := 0, longitude := 0 } egyptianMuseum.point) }
        : Museum).imageUrl = m0.imageUrl :=
  a_star_search_frame sampleH { latitude := 0, longitude := 0 } [egyptianMuseum]
    { egyptianMuseum with
        distance := some (sampleH { latitude := 0, longitude := 0 } egyptianMuseum.point) }
    (List.mem_singleton.2 rfl)

theorem get_current_location_failure_absent_witness :
    get_current_location (fun _ => none) GeoResponse.netFail = (none, none) ∧
    get_current_location (fun _ => none) GeoResponse.jsonNoLoc = (none, none) ∧
    (∀ s, (∀ la lo, pySplitComma s ≠ [la, lo]) →
      get_current_location (fun _ => none) (GeoResponse.jsonLoc s) = (none, none)) ∧
    (∀ s la lo, pySplitComma s = [la, lo] →
      ((fun _ : String => (none : Option ℚ)) la = none ∨
        (fun _ : String => (none : Option ℚ)) lo = none) →
      get_current_location (fun _ => none) (GeoResponse.jsonLoc s) = (none, none)) :=
  get_current_location_failure_absent (fun _ => none)

theorem get_current_location_shape_witness :
    (get_current_location (fun s => if s = "30" then some 30 else none)
        (GeoResponse.jsonLoc "30,30") = (none, none) ∨
      ∃ x y, get_current_location (fun s => if s = "30" then some 30 else none)
        (GeoResponse.jsonLoc "30,30") = (some x, some y)) ∧
    (((get_current_location (fun s => if s = "30" then some 30 else none)
          (GeoResponse.jsonLoc "30,30")).1 = none ∨
        (get_current_location (fun s => if s = "30" then some 30 else none)
          (GeoResponse.jsonLoc "30,30")).2 = none) ↔
      get_current_location (fun s => if s = "30" then some 30 else none)
        (GeoResponse.jsonLoc "30,30") = (none, none)) :=
  get_current_location_shape (fun s => if s = "30" then some 30 else none)
    (GeoResponse.jsonLoc "30,30")

theorem calculate_distance_symm_self_witness :
    calculate_distance { latitude := 0, longitude := 0 } { latitude := 1, longitude := 2 } =
      calculate_distance { latitude := 1, longitude := 2 } { latitude := 0, longitude := 0 } ∧
    calculate_distance { latitude := 0, longitude := 0 } { latitude := 0, longitude := 0 } = 0 :=
  calculate_distance_symm_self { latitude := 0, longitude := 0 } { latitude := 1, longitude := 2 }

theorem fetch_exception_propagates_witness :
    fetch_museum_data "Cairo" (HttpResult.status 404 []) = Except.ok none ∧
    fetch_museum_data "Cairo" HttpResult.exn = Except.error () ∧
    fetch_museums_for_cities (fun _ => HttpResult.exn) ["Cairo"] = Except.error () ∧
    planTripPost sampleH (fun _ => HttpResult.exn) (fun _ => none) GeoResponse.netFail
      (fun _ => none) ["Cairo"] "1" = HandlerResult.raised ∧
    showMuseumsPost (fun _ => HttpResult.exn) ["Cairo"] = HandlerResult.raised :=
  fetch_exception_propagates "Cairo" 404 [] (by simp) (fun _ => HttpResult.exn) []
    rfl sampleH (fun _ => none) GeoResponse.netFail (fun _ => none) "1"

theorem fetch_museums_for_cities_spec_witness :
    fetch_museums_for_cities sampleFetch ["Cairo"] =
      Except.ok (["Cairo"].flatMap fun c =>
        match sampleFetch c with
        | HttpResult.exn => []
        | HttpResult.status code body =>
          if code = 200 then body.map fun r => { cleanMuseum r with city := c }
          else []) ∧
    fetch_museums_for_cities sampleFetch [] = Except.ok [] :=
  fetch_museums_for_cities_spec sampleFetch ["Cairo"]
    (by intro c hc; simp [sampleFetch])

theorem empty_museums_yield_400_witness :
    (∀ (h : Point → Point → ℚ) (parseFloat : String → Option ℚ) (geo : GeoResponse)
      (parseInt : String → Option Int) (sl : String),
      planTripPost h failFetch parseFloat geo parseInt ["Nowhere"] sl =
        HandlerResult.err noMuseumsMsg 400) ∧
    showMuseumsPost failFetch ["Nowhere"] = HandlerResult.err noMuseumsMsg 400 :=
  empty_museums_yield_400 failFetch ["Nowhere"] rfl

theorem planTripPost_start_resolution_witness :
    (pyLower "1" = "current location" →
      (get_current_location (fun _ => none) GeoResponse.netFail = (none, none) →
        planTripPost sampleH sampleFetch (fun _ => none) GeoResponse.netFail (fun _ => some 1)
          ["Cairo"] "1" = HandlerResult.err noLocationMsg 400) ∧
      (∀ la lo, get_current_location (fun _ => none) GeoResponse.netFail = (some la, some lo) →
        planTripPost sampleH sampleFetch (fun _ => none) GeoResponse.netFail (fun _ => some 1)
          ["Cairo"] "1" = HandlerResult.ok (a_star_search sampleH
            { latitude := la, longitude := lo }
            [{ cleanMuseum rawEgyptian with city := "Cairo" }]))) ∧
    (pyLower "1" ≠ "current location" →
      (∀ chosen, [{ cleanMuseum rawEgyptian with city := "Cairo" }].find?
          (fun m => pyLower "1" == pyLower m.name) = some chosen →
        planTripPost sampleH sampleFetch (fun _ => none) GeoResponse.netFail (fun _ => some 1)
          ["Cairo"] "1" = HandlerResult.ok (a_star_search sampleH chosen.point
            [{ cleanMuseum rawEgyptian with city := "Cairo" }])) ∧
      ([{ cleanMuseum rawEgyptian with city := "Cairo" }].find?
          (fun m => pyLower "1" == pyLower m.name) = none →
        (∀ v chosen, (fun _ : String => some (1 : Int)) "1" = some v → 0 ≤ v - 1 →
          ∀ hlt : (v - 1).toNat <
            ([{ cleanMuseum rawEgyptian with city := "Cairo" }] : List Museum).length,
          ([{ cleanMuseum rawEgyptian with city := "Cairo" }] : List Museum).get
            ⟨(v - 1).toNat, hlt⟩ = chosen →
          planTripPost sampleH sampleFetch (fun _ => none) GeoResponse.netFail (fun _ => some 1)
            ["Cairo"] "1" = HandlerResult.ok (a_star_search sampleH chosen.point
              [{ cleanMuseum rawEgyptian with city := "Cairo" }])) ∧
        (∀ v, (fun _ : String => some (1 : Int)) "1" = some v →
          ¬(0 ≤ v - 1 ∧ (v - 1).toNat <
            ([{ cleanMuseum rawEgyptian with city := "Cairo" }] : List Museum).length) →
          planTripPost sampleH sampleFetch (fun _ => none) GeoResponse.netFail (fun _ => some 1)
            ["Cairo"] "1" = HandlerResult.err badNumberMsg 400) ∧
        ((fun _ : String => some (1 : Int)) "1" = none →
          planTripPost sampleH sampleFetch (fun _ => none) GeoResponse.netFail (fun _ => some 1)
            ["Cairo"] "1" = HandlerResult.err badInputMsg 400))) :=
  planTripPost_start_resolution sampleH sampleFetch (fun _ => none) GeoResponse.netFail
    (fun _ => some 1) ["Cairo"] "1" [{ cleanMuseum rawEgyptian with city := "Cairo" }]
    rfl (by simp)
